import Mathlib

/-!
Shallow embedding of the Spritefy music-library core (src/app.py, src/main.py):
song construction with metadata defaults, directory scanning, playlist
persistence, playback-state transitions, and the scan-trigger concurrency
model, together with theorems settling the specification claims.
-/

namespace Spritefy

/-! ### String helpers modelling `os.path` operations -/

/-- Characters of the basename: everything after the last `'/'`
(models `os.path.basename`). -/
def afterLastSlash : List Char → List Char
  | [] => []
  | c :: cs =>
      let rest := afterLastSlash cs
      if cs.contains '/' ∨ c = '/' then rest
      else c :: cs

/-- `os.path.basename`: the component after the last path separator. -/
def basename (s : String) : String := ⟨afterLastSlash s.toList⟩

/-- Index of the last occurrence of a character in a list, if any. -/
def lastIdxOf (c : Char) : List Char → Option Nat
  | [] => none
  | x :: xs =>
      match lastIdxOf c xs with
      | some i => some (i + 1)
      | none => if x = c then some 0 else none

/-- The stem of `os.path.splitext`: drop the final extension, where the
extension starts at the last dot provided some non-dot character precedes
it (the CPython rule, so `".bashrc"` has no extension). -/
def splitextStem (name : String) : String :=
  let cs := name.toList
  match lastIdxOf '.' cs with
  | none => name
  | some i => if (cs.take i).all (fun c => c = '.') then name else ⟨cs.take i⟩

/-- ASCII lower-casing of one character (models `str.lower` on the
letters relevant here). -/
def lowerChar (c : Char) : Char :=
  if 65 ≤ c.toNat ∧ c.toNat ≤ 90 then Char.ofNat (c.toNat + 32) else c

/-- `str.lower` over a string. -/
def lowerStr (s : String) : String := ⟨s.toList.map lowerChar⟩

/-- `str.endswith`. -/
def endsWithStr (s suffix : String) : Bool :=
  suffix.toList.reverse.isPrefixOf s.toList.reverse

/-- The guard `filepath.lower().endswith(".mp3")` (single-quoted in the source) from `Song.__init__`. -/
def isMp3 (filepath : String) : Bool := endsWithStr (lowerStr filepath) ".mp3"

/-! ### Song (src/app.py `Song.__init__`, src/main.py `Song.__init__`) -/

/-- Result of a successful `MP3(filepath, ID3=EasyID3)` read: each tag may be
absent (then `audio.get(tag, [default])[0]` keeps the default), the stream
length is always present on success. -/
structure Mp3Tags where
  title : Option String
  artist : Option String
  album : Option String
  length : Nat
  deriving DecidableEq, Repr

/-- `f"{int(mins)}:{int(secs):02d}"` for a duration in seconds. -/
def fmtDuration (n : Nat) : String :=
  toString (n / 60) ++ ":" ++ (if n % 60 < 10 then "0" else "") ++ toString (n % 60)

/-- A music track with its metadata, as built by `Song.__init__`. -/
structure Song where
  filepath : String
  filename : String
  id : Nat
  title : String
  artist : String
  album : String
  duration : Nat
  durationStr : String
  deriving DecidableEq, Repr

/-- `Song.__init__`: set defaults (title = filename stem, placeholder artist
and album, duration 0), then, for an `.mp3` path, attempt the metadata read;
`readResult = none` models the read raising, in which case the defaults are
kept. -/
def mkSong (filepath : String) (songId : Nat) (readResult : Option Mp3Tags) : Song :=
  let filename := basename filepath
  let defTitle := splitextStem filename
  let base : Song :=
    { filepath := filepath, filename := filename, id := songId, title := defTitle
      artist := "Artista Desconhecido", album := "Álbum Desconhecido"
      duration := 0, durationStr := "0:00" }
  if isMp3 filepath then
    match readResult with
    | some tags =>
        { base with
          title := tags.title.getD defTitle
          artist := tags.artist.getD "Artista Desconhecido"
          album := tags.album.getD "Álbum Desconhecido"
          duration := tags.length
          durationStr := fmtDuration tags.length }
    | none => base
  else base

/-! ### Directory enumeration (`glob.glob` of the pattern `*.mp3` joined to the directory) -/

/-- Whether a directory entry (path relative to the scanned directory)
matches the glob pattern `*.mp3`: `*` stays within one path component and
never matches a leading dot, and the extension match is case-sensitive. -/
def globMp3Match (name : String) : Bool :=
  (match name.toList with
   | [] => false
   | c :: _ => c ≠ '.')
  && !(name.toList.contains '/')
  && endsWithStr name ".mp3"

/-- The catalog construction done by the scan worker (src/app.py
`_scan_songs_worker`, src/main.py `scan_songs`): filter the directory
entries through the glob, then build one `Song` per match, ids in
enumeration order.  `entries` pairs each entry name with the outcome of its
metadata read. -/
def scanSongsWorker (dir : String) (entries : List (String × Option Mp3Tags)) :
    List Song :=
  ((entries.filter (fun e => globMp3Match e.1)).enum).map
    (fun p => mkSong (dir ++ "/" ++ p.2.1) p.1 p.2.2)

/-! ### Association-list model of Python dicts (insertion-ordered) -/

/-- `dict.get(key)`: first binding for the key, if any. -/
def lookupA {α : Type} : List (String × α) → String → Option α
  | [], _ => none
  | p :: rest, k => if p.1 = k then some p.2 else lookupA rest k

/-- `dict[key] = value`: overwrite in place when the key exists, append the
new binding otherwise (insertion order preserved, as for Python dicts). -/
def insertAssoc {α : Type} : List (String × α) → String → α → List (String × α)
  | [], k, v => [(k, v)]
  | p :: rest, k, v =>
      if p.1 = k then (k, v) :: rest else p :: insertAssoc rest k v

/-- Outcome of reading the playlists file, covering the three paths the
loaders distinguish: file absent, unparsable JSON, or parsed content. -/
inductive FileRead
  | absent
  | malformed
  | content (m : List (String × List String))
  deriving Repr

/-! ### MusicLibrary of the Flask service (src/app.py) -/

/-- The library-state fields of the `MusicLibrary` in app.py relevant to the
claims: the filename-keyed catalog map, the scan-ordered list, the raw
playlists mapping as parsed from JSON, and the play-history stack of
serialized songs. -/
structure MusicLibraryA where
  songsMap : List (String × Song)
  songsList : List Song
  playlists : List (String × List String)
  playHistory : List Song
  deriving Repr

/-- `MusicLibrary._load_playlists` (app.py): on success the parsed mapping
is stored verbatim — no resolution against the catalog; on failure the
playlists become empty; an absent file leaves the state alone. -/
def appLoadPlaylists (lib : MusicLibraryA) : FileRead → MusicLibraryA
  | .absent => lib
  | .malformed => { lib with playlists := [] }
  | .content m => { lib with playlists := m }

/-- `MusicLibrary._save_playlists` (app.py): the JSON dump is wrapped in
`try/except` that only prints, so the caller observes success regardless
of `writeOk` (whether the filesystem write succeeded). -/
def appSavePlaylists (writeOk : Bool) : Unit :=
  let _ := writeOk
  ()

/-- The POST branch of `handle_playlists` (app.py): with valid data the
entry is overwritten in memory, `_save_playlists` is invoked (its failure
swallowed), and the handler answers 201; invalid data answers 400 without
touching the store. -/
def handlePlaylistsPost (lib : MusicLibraryA)
    (data : Option (String × List String)) (writeOk : Bool) :
    MusicLibraryA × Nat :=
  match data with
  | none => (lib, 400)
  | some (name, songs) =>
      let lib' := { lib with playlists := insertAssoc lib.playlists name songs }
      let _ := appSavePlaylists writeOk
      (lib', 201)

/-- `MusicLibrary.add_song_to_history` (app.py): look the song up by
filename; when found, append it to the history unless it equals the
filename of the current top of the stack. -/
def addSongToHistory (lib : MusicLibraryA) (filename : String) : MusicLibraryA :=
  match lookupA lib.songsMap filename with
  | none => lib
  | some song =>
      match lib.playHistory.getLast? with
      | none => { lib with playHistory := lib.playHistory ++ [song] }
      | some last =>
          if last.filename ≠ song.filename then
            { lib with playHistory := lib.playHistory ++ [song] }
          else lib

/-! ### MusicLibrary of the Flet player (src/main.py) -/

/-- The library-state fields of the `MusicLibrary` in main.py: the scan-ordered
song list, the filepath-keyed lookup map, and the playlists resolved to
`Song` objects. -/
structure MusicLibraryM where
  songs : List Song
  songsByFilepath : List (String × Song)
  playlists : List (String × List Song)
  deriving Repr

/-- `MusicLibrary.get_song_by_filepath` (main.py). -/
def getSongByFilepath (lib : MusicLibraryM) (fp : String) : Option Song :=
  lookupA lib.songsByFilepath fp

/-- `MusicLibrary.save_playlists` (main.py): the JSON document written out —
each playlist reduced to its list of filepaths. -/
def savePlaylistsM (lib : MusicLibraryM) : List (String × List String) :=
  lib.playlists.map (fun p => (p.1, p.2.map Song.filepath))

/-- `MusicLibrary.load_playlists` (main.py): absent file returns early;
parse failure empties the store; otherwise each persisted path is resolved
through `get_song_by_filepath` and only resolved songs are kept. -/
def loadPlaylistsM (lib : MusicLibraryM) : FileRead → MusicLibraryM
  | .absent => lib
  | .malformed => { lib with playlists := [] }
  | .content m =>
      { lib with
        playlists := m.map (fun p =>
          (p.1, p.2.filterMap (fun fp => getSongByFilepath lib fp))) }

/-- `MusicLibrary.get_playlist` (main.py): `self.playlists.get(name, [])`. -/
def getPlaylistM (lib : MusicLibraryM) (name : String) : List Song :=
  (lookupA lib.playlists name).getD []

/-- `MusicLibrary.create_or_update_playlist` (main.py): store the entry,
then `save_playlists` — whose `open`/`json.dump` has no exception handler,
so a write failure propagates to the caller while the in-memory entry
stays.  `writeOk` models whether the filesystem write succeeds. -/
def createOrUpdatePlaylist (lib : MusicLibraryM) (name : String)
    (songs : List Song) (writeOk : Bool) :
    MusicLibraryM × Except String Unit :=
  let lib' := { lib with playlists := insertAssoc lib.playlists name songs }
  (lib', if writeOk then Except.ok () else Except.error "IOError")

/-! ### Player (src/main.py) -/

/-- Externally visible state of the `flet_audio.Audio` backend component:
the loaded source, the last forwarded volume (`audio.volume = value / 100`),
the last forwarded seek position, and whether playback was last started or
paused. -/
structure AudioState where
  src : Option String
  volume : ℚ
  lastSeek : Option Int
  playing : Bool
  deriving DecidableEq, Repr

/-- `Player` state: current song, playing flag, forward queue (deque, front
at the list head), history stack (top at the list end), and the audio
backend. -/
structure PlayerState where
  current : Option Song
  queue : List Song
  history : List Song
  isPlaying : Bool
  audio : AudioState
  deriving DecidableEq, Repr

/-- A freshly constructed `Player`. -/
def playerInit : PlayerState :=
  { current := none, queue := [], history := [], isPlaying := false
    audio := { src := none, volume := 1, lastSeek := none, playing := false } }

/-- `Player.load_playlist` (main.py): clear the queue and extend it with the
given songs. -/
def loadQueue (songs : List Song) (st : PlayerState) : PlayerState :=
  { st with queue := songs }

/-- One `deque.rotate(-1)`: move the front element to the back. -/
def rotateStep {α : Type} : List α → List α
  | [] => []
  | x :: xs => xs ++ [x]

/-- The `while self.playback_queue[0] != song: rotate(-1)` loop of
`Player.play`, with explicit fuel; `Player.play` runs it with fuel equal to
the queue length, which suffices whenever the song is in the queue. -/
def rotateLoop {α : Type} [DecidableEq α] : Nat → α → List α → List α
  | 0, _, q => q
  | n + 1, s, q => if q.head? = some s then q else rotateLoop n s (rotateStep q)

/-- `Player.play` (main.py): with a song argument, rotate it to the front if
present in the queue, else push it to the front; then, if the queue is
empty, return unchanged ("Fila de reprodução vazia"); otherwise push the
outgoing current song (if any) onto the history, pop the new front into
`current_song`, point the audio backend at it and start playback. -/
def play (song? : Option Song) (st : PlayerState) : PlayerState :=
  let q : List Song :=
    match song? with
    | none => st.queue
    | some s =>
        if s ∈ st.queue then rotateLoop st.queue.length s st.queue
        else s :: st.queue
  match q with
  | [] => { st with queue := q }
  | x :: rest =>
      { current := some x
        queue := rest
        history := st.history ++ (match st.current with
          | some c => [c]
          | none => [])
        isPlaying := true
        audio := { st.audio with src := some x.filepath, playing := true } }

/-- `Player.resume` (main.py): only when a current song exists, resume the
backend and set the playing flag; otherwise do nothing at all. -/
def resume (st : PlayerState) : PlayerState :=
  match st.current with
  | some _ =>
      { st with isPlaying := true, audio := { st.audio with playing := true } }
  | none => st

/-- `Player.pause` (main.py): pause the backend and clear the playing
flag. -/
def pause (st : PlayerState) : PlayerState :=
  { st with isPlaying := false, audio := { st.audio with playing := false } }

/-- `Player.stop` (main.py): pause the backend, clear the current song and
the playing flag. -/
def stop (st : PlayerState) : PlayerState :=
  { st with current := none, isPlaying := false
            audio := { st.audio with playing := false } }

/-- `Player.next` (main.py): with a non-empty queue, `play()`; otherwise
stop. -/
def next (st : PlayerState) : PlayerState :=
  match st.queue with
  | [] => stop st
  | _ :: _ => play none st

/-- `Player.prev` (main.py): with empty history do nothing; otherwise push
the current song (if any) to the queue front, pop the history top, push it
to the queue front, and invoke `play()`. -/
def prev (st : PlayerState) : PlayerState :=
  match st.history.getLast? with
  | none => st
  | some p =>
      let q1 : List Song :=
        match st.current with
        | some c => c :: st.queue
        | none => st.queue
      play none { st with queue := p :: q1, history := st.history.dropLast }

/-- `Player.set_volume` (main.py): `self.audio.volume = value / 100` —
forwarded without clamping, no other state touched. -/
def setVolume (value : ℚ) (st : PlayerState) : PlayerState :=
  { st with audio := { st.audio with volume := value / 100 } }

/-- `Player.seek` (main.py): forward the position to the backend
unchanged. -/
def seek (positionMs : Int) (st : PlayerState) : PlayerState :=
  { st with audio := { st.audio with lastSeek := some positionMs } }

/-! ### Interleaving model of the scan trigger (src/app.py)

`trigger_scan` / `scan_songs_async` read `is_scanning` without holding any
lock and return immediately after spawning the worker thread; the worker
acquires `scan_lock`, sets `is_scanning`, swaps the catalog, clears
`is_scanning` and releases the lock.  Two HTTP trigger threads and the two
worker threads they may spawn are modelled; every labelled step is one
atomic action. -/

/-- Program counter of a `trigger_scan` request thread. -/
inductive TPc
  | idle
  | passed
  | spawned
  | returned
  | rejected
  deriving DecidableEq, Repr

/-- Program counter of a scan worker thread.  `acquired` through `cleared`
are the region where `scan_lock` is held. -/
inductive WPc
  | notSpawned
  | ready
  | acquired
  | flagged
  | replaced
  | cleared
  | done
  deriving DecidableEq, Repr

/-- Shared state plus the four thread program counters. -/
structure Sys where
  scanning : Bool
  lockHeld : Bool
  replaceCount : Nat
  t1 : TPc
  t2 : TPc
  w1 : WPc
  w2 : WPc
  deriving DecidableEq, Repr

/-- Initial system: idle library, no scan in flight. -/
def initSys : Sys :=
  { scanning := false, lockHeld := false, replaceCount := 0
    t1 := .idle, t2 := .idle, w1 := .notSpawned, w2 := .notSpawned }

def Sys.tpc (s : Sys) : Bool → TPc
  | false => s.t1
  | true => s.t2

def Sys.wpc (s : Sys) : Bool → WPc
  | false => s.w1
  | true => s.w2

def Sys.setT (s : Sys) : Bool → TPc → Sys
  | false, pc => { s with t1 := pc }
  | true, pc => { s with t2 := pc }

def Sys.setW (s : Sys) : Bool → WPc → Sys
  | false, pc => { s with w1 := pc }
  | true, pc => { s with w2 := pc }

/-- Atomic actions of a trigger thread: the unlocked read of `is_scanning`
(line 105 of app.py / line 198), spawning the worker, and returning the
HTTP response. -/
inductive TAct
  | check
  | spawnW
  | ret
  deriving DecidableEq, Repr

/-- Atomic actions of a worker thread: `with self.scan_lock` entry,
`is_scanning = True`, the catalog swap, `is_scanning = False`, lock
release. -/
inductive WAct
  | acq
  | setFlag
  | replaceCat
  | clearFlag
  | rel
  deriving DecidableEq, Repr

/-- A scheduling label: which thread takes which atomic action. -/
inductive Label
  | trig (i : Bool) (a : TAct)
  | work (i : Bool) (a : WAct)
  deriving DecidableEq, Repr

/-- One atomic step of trigger thread `i`; `none` when the action is not
enabled at the current program counter of the thread. -/
def tstep (s : Sys) (i : Bool) : TAct → Option Sys
  | .check =>
      if s.tpc i = .idle then
        some (s.setT i (if s.scanning then .rejected else .passed))
      else none
  | .spawnW =>
      if s.tpc i = .passed ∧ s.wpc i = .notSpawned then
        some ((s.setT i .spawned).setW i .ready)
      else none
  | .ret =>
      if s.tpc i = .spawned then some (s.setT i .returned) else none

/-- One atomic step of worker thread `i`. -/
def wstep (s : Sys) (i : Bool) : WAct → Option Sys
  | .acq =>
      if s.wpc i = .ready ∧ s.lockHeld = false then
        some { s.setW i .acquired with lockHeld := true }
      else none
  | .setFlag =>
      if s.wpc i = .acquired then
        some { s.setW i .flagged with scanning := true }
      else none
  | .replaceCat =>
      if s.wpc i = .flagged then
        some { s.setW i .replaced with replaceCount := s.replaceCount + 1 }
      else none
  | .clearFlag =>
      if s.wpc i = .replaced then
        some { s.setW i .cleared with scanning := false }
      else none
  | .rel =>
      if s.wpc i = .cleared then
        some { s.setW i .done with lockHeld := false }
      else none

/-- Dispatch one labelled atomic step. -/
def stepL (s : Sys) : Label → Option Sys
  | .trig i a => tstep s i a
  | .work i a => wstep s i a

/-- Run a schedule, skipping labels that are not enabled. -/
def runSys (s : Sys) : List Label → Sys
  | [] => s
  | l :: ls => runSys ((stepL s l).getD s) ls

/-- The interleaving step relation. -/
def SysStep (s s' : Sys) : Prop := ∃ l, stepL s l = some s'

/-- States reachable from the initial system. -/
inductive SysReachable : Sys → Prop
  | init : SysReachable initSys
  | step {s s'} : SysReachable s → SysStep s s' → SysReachable s'

/-- Whether a worker program counter is inside the `scan_lock` region. -/
def inCS : WPc → Bool
  | .acquired => true
  | .flagged => true
  | .replaced => true
  | .cleared => true
  | _ => false

/-- The lock invariant: a worker inside the locked region implies the lock
is held, and the two workers are never simultaneously inside it. -/
def SysInv (s : Sys) : Prop :=
  (inCS s.w1 = true → s.lockHeld = true) ∧
  (inCS s.w2 = true → s.lockHeld = true) ∧
  ¬(inCS s.w1 = true ∧ inCS s.w2 = true)

/-! ### Definitions following the words of the spec, for refinement comparison -/

/-- Written from the words of the spec (section 6): extension matching that is
case-insensitive, for comparison with the glob filter the code uses. -/
def extMatchesMp3CaseInsensitive (name : String) : Bool :=
  endsWithStr (lowerStr name) ".mp3"

/-- Written from the words of the spec (section 4.4): clamp a volume command to the
valid range 0–100 before forwarding, for comparison with `set_volume`. -/
def clampVolumeSpec (value : ℚ) : ℚ := min (max value 0) 100

/-! ### Sample data for witnesses and counterexamples -/

/-- A sample song built from a file whose metadata read fails. -/
def sampleA : Song := mkSong "music/a.mp3" 0 none

/-- A second sample song. -/
def sampleB : Song := mkSong "music/b.mp3" 1 none

/-- A third sample song. -/
def sampleC : Song := mkSong "music/c.mp3" 2 none

/-- A sample app-side library whose catalog holds only `a.mp3`. -/
def sampleLibA : MusicLibraryA :=
  { songsMap := [("a.mp3", sampleA)], songsList := [sampleA]
    playlists := [], playHistory := [] }

/-- A sample app-side library whose history top is `sampleA`. -/
def sampleLibAHist : MusicLibraryA :=
  { sampleLibA with playHistory := [sampleA] }

/-- A sample player-side library before restart, holding one playlist. -/
def sampleLibM1 : MusicLibraryM :=
  { songs := [], songsByFilepath := [], playlists := [("X", [sampleA, sampleB])] }

/-- A sample player-side library after restart, resolving only
`music/a.mp3`. -/
def sampleLibM2 : MusicLibraryM :=
  { songs := [sampleA], songsByFilepath := [("music/a.mp3", sampleA)]
    playlists := [] }

/-- The system after the first trigger passed the unlocked flag check. -/
def witSysChecked : Sys := { initSys with t1 := .passed }

/-- The system after the first trigger spawned its worker. -/
def witSysSpawned : Sys := { initSys with t1 := .spawned, w1 := .ready }

/-- The system after the spawned worker acquired the scan lock. -/
def witSysAcq : Sys :=
  { initSys with t1 := .spawned, w1 := .acquired, lockHeld := true }

/-! ### Helper lemmas -/

/-- Looking up a key right after storing it yields the stored value. -/
theorem lookupA_insertAssoc {α : Type} (m : List (String × α)) (k : String) (v : α) :
    lookupA (insertAssoc m k v) k = some v := by
  induction m with
  | nil => simp [insertAssoc, lookupA]
  | cons p rest ih =>
      by_cases h : p.1 = k
      · simp [insertAssoc, h, lookupA]
      · simp [insertAssoc, h, lookupA, ih]

/-- `Song.__init__` stores the constructor argument as the filepath. -/
theorem mkSong_filepath (fp : String) (i : Nat) (r : Option Mp3Tags) :
    (mkSong fp i r).filepath = fp := by
  unfold mkSong
  split
  · cases r <;> rfl
  · rfl

/-- Filtering then projecting the entry names commutes. -/
theorem filter_fst_comm (entries : List (String × Option Mp3Tags)) :
    (entries.filter (fun e => globMp3Match e.1)).map Prod.fst
      = (entries.map Prod.fst).filter globMp3Match := by
  induction entries with
  | nil => rfl
  | cons e rest ih =>
      by_cases h : globMp3Match e.1
      · simp [List.filter_cons, h, ih]
      · simp [List.filter_cons, h, ih]

/-- Enumerating and building songs preserves the file paths, whatever the
starting index. -/
theorem map_filepath_enumFrom (dir : String) :
    ∀ (l : List (String × Option Mp3Tags)) (k : Nat),
      (((l.enumFrom k).map
          (fun p => mkSong (dir ++ "/" ++ p.2.1) p.1 p.2.2)).map Song.filepath)
        = l.map (fun e => dir ++ "/" ++ e.1)
  | [], _ => rfl
  | e :: rest, k => by
      simp only [List.enumFrom, List.map_cons, mkSong_filepath,
        map_filepath_enumFrom dir rest (k + 1)]

/-- Unfolding one iteration of the rotate-to-front loop. -/
theorem rotateLoop_succ {α : Type} [DecidableEq α] (n : Nat) (s : α) (q : List α) :
    rotateLoop (n + 1) s q
      = if q.head? = some s then q else rotateLoop n s (rotateStep q) := rfl

/-- The rotate-to-front loop, run on a queue decomposed at the first
occurrence of the target with at least `prefix-length + 1` fuel, lands the
target at the front with the rest cyclically shifted. -/
theorem rotateLoop_eq_of_first {α : Type} [DecidableEq α] (s : α) :
    ∀ (pre post : List α) (extra : Nat), s ∉ pre →
      rotateLoop (pre.length + extra + 1) s (pre ++ s :: post) = s :: (post ++ pre)
  | [], post, extra, _ => by
      simp [rotateLoop_succ]
  | x :: xs, post, extra, h => by
      have hx : x ≠ s := fun hxe => h (hxe ▸ List.mem_cons_self x xs)
      have hxs : s ∉ xs := fun hm => h (List.mem_cons_of_mem x hm)
      have hfuel : (x :: xs).length + extra + 1 = (xs.length + extra + 1) + 1 := by
        simp only [List.length_cons]
        omega
      rw [hfuel, rotateLoop_succ, List.cons_append]
      have hcond : ¬((x :: (xs ++ s :: post)).head? = some s) := by
        simp only [List.head?_cons, Option.some.injEq]
        exact fun hsx => hx hsx
      have hstep : rotateStep (x :: (xs ++ s :: post)) = xs ++ s :: (post ++ [x]) := by
        simp [rotateStep]
      rw [if_neg hcond, hstep, rotateLoop_eq_of_first s xs (post ++ [x]) extra hxs]
      simp

/-- Every member of a list heads some decomposition whose prefix avoids
it (its first occurrence). -/
theorem exists_first_occurrence {α : Type} [DecidableEq α] (s : α) :
    ∀ q : List α, s ∈ q → ∃ pre post, q = pre ++ s :: post ∧ s ∉ pre
  | [], h => absurd h (List.not_mem_nil s)
  | x :: rest, h => by
      by_cases hx : x = s
      · exact ⟨[], rest, by simp [hx], by simp⟩
      · have hm : s ∈ rest := by
          rcases List.mem_cons.mp h with h1 | h1
          · exact absurd h1.symm hx
          · exact h1
        obtain ⟨pre, post, hq, hpre⟩ := exists_first_occurrence s rest hm
        refine ⟨x :: pre, post, by simp [hq], ?_⟩
        intro hmem
        rcases List.mem_cons.mp hmem with h1 | h1
        · exact hx h1.symm
        · exact hpre h1

/-! ### Claim theorems -/

/-- C2: starting from an empty queue and empty history, after
`load_queue([a,b,c])`: `play()` makes current = a with queue = [b, c] and
history = []; a following `next()` makes current = b with history = [a]; a
following `prev()` makes current = a with history = [b] — `prev` re-pushes
the outgoing current track onto history via the nested `play()` call. -/
theorem playback_sequencing_C2 (a b c : Song) :
    (play none (loadQueue [a, b, c] playerInit)).current = some a ∧
    (play none (loadQueue [a, b, c] playerInit)).queue = [b, c] ∧
    (play none (loadQueue [a, b, c] playerInit)).history = [] ∧
    (next (play none (loadQueue [a, b, c] playerInit))).current = some b ∧
    (next (play none (loadQueue [a, b, c] playerInit))).history = [a] ∧
    (next (play none (loadQueue [a, b, c] playerInit))).queue = [c] ∧
    (prev (next (play none (loadQueue [a, b, c] playerInit)))).current = some a ∧
    (prev (next (play none (loadQueue [a, b, c] playerInit)))).history = [b] ∧
    (prev (next (play none (loadQueue [a, b, c] playerInit)))).queue = [b, c] := by
  refine ⟨rfl, rfl, rfl, rfl, rfl, rfl, ?_, ?_, ?_⟩ <;>
    simp [play, next, prev, loadQueue, playerInit]

/-- C5: on a failed metadata read the constructed track keeps the defaults:
title = filename stem, the placeholder artist and album, duration 0; and a
scan of a directory with one readable and one unreadable `.mp3` yields two
tracks, the unreadable one carrying the filename-stem title and the default
artist. -/
theorem metadata_defaults_C5 :
    (∀ (fp : String) (i : Nat),
       (mkSong fp i none).title = splitextStem (basename fp) ∧
       (mkSong fp i none).artist = "Artista Desconhecido" ∧
       (mkSong fp i none).album = "Álbum Desconhecido" ∧
       (mkSong fp i none).duration = 0) ∧
    (scanSongsWorker "music"
        [("song1.mp3", some ⟨some "Test", some "Band", none, 180⟩),
         ("corrupt.mp3", none)]).length = 2 ∧
    (scanSongsWorker "music"
        [("song1.mp3", some ⟨some "Test", some "Band", none, 180⟩),
         ("corrupt.mp3", none)]).map Song.title = ["Test", "corrupt"] ∧
    (scanSongsWorker "music"
        [("song1.mp3", some ⟨some "Test", some "Band", none, 180⟩),
         ("corrupt.mp3", none)]).map Song.artist
      = ["Band", "Artista Desconhecido"] := by
  refine ⟨fun fp i => ?_, by decide, by decide, by decide⟩
  unfold mkSong
  dsimp only
  split
  · exact ⟨rfl, rfl, rfl, rfl⟩
  · exact ⟨rfl, rfl, rfl, rfl⟩

/-- C9: with a current track, `pause()` then `resume()` leaves current
track, queue and history unchanged and restores the playing flag; with no
current track, `resume()` changes no state at all. -/
theorem pause_resume_C9 :
    (∀ (st : PlayerState) (s : Song), st.current = some s →
       (resume (pause st)).current = st.current ∧
       (resume (pause st)).queue = st.queue ∧
       (resume (pause st)).history = st.history ∧
       (resume (pause st)).isPlaying = true) ∧
    (∀ st : PlayerState, st.current = none → resume st = st) := by
  constructor
  · intro st s h
    simp [pause, resume, h]
  · intro st h
    simp [resume, h]

/-- C9 witness: the property instantiated at concrete states. -/
theorem pause_resume_C9_witness :
    ((resume (pause (play none (loadQueue [sampleA] playerInit)))).isPlaying = true) ∧
    resume playerInit = playerInit :=
  ⟨(pause_resume_C9.1 (play none (loadQueue [sampleA] playerInit)) sampleA rfl).2.2.2,
   pause_resume_C9.2 playerInit rfl⟩

/-- C8 counterexample: `set_volume(200)` forwards 200 / 100 = 2 to the
backend, whereas clamping to 0–100 before forwarding would give 1 — the
forwarded value is not clamped to its valid range. -/
theorem volume_clamp_C8_counterexample :
    (setVolume 200 playerInit).audio.volume = 2 ∧
    clampVolumeSpec 200 / 100 = 1 ∧
    (setVolume 200 playerInit).audio.volume ≠ clampVolumeSpec 200 / 100 := by
  refine ⟨by norm_num [setVolume, playerInit], by norm_num [clampVolumeSpec], ?_⟩
  norm_num [setVolume, playerInit, clampVolumeSpec]

/-- C8 amended: `set_volume` and `seek` are pass-throughs that keep no
internal player state beyond forwarding — `set_volume` forwards exactly
`value / 100` (unclamped) and `seek` forwards the position unchanged. -/
theorem volume_seek_passthrough_C8 (v : ℚ) (p : Int) (st : PlayerState) :
    (setVolume v st).audio.volume = v / 100 ∧
    (setVolume v st).current = st.current ∧
    (setVolume v st).queue = st.queue ∧
    (setVolume v st).history = st.history ∧
    (setVolume v st).isPlaying = st.isPlaying ∧
    (seek p st).audio.lastSeek = some p ∧
    (seek p st).current = st.current ∧
    (seek p st).queue = st.queue ∧
    (seek p st).history = st.history ∧
    (seek p st).isPlaying = st.isPlaying ∧
    (seek p st).audio.volume = st.audio.volume := by
  simp [setVolume, seek]

/-- C7 counterexample: `SONG.MP3` and `.hidden.mp3` both have extension
`.mp3` up to letter case and sit directly in the directory, yet the glob
`*.mp3` skips them — the match is case-sensitive and skips dot-files, so
the scan creates no track for either. -/
theorem scan_glob_C7_counterexample :
    extMatchesMp3CaseInsensitive "SONG.MP3" = true ∧
    extMatchesMp3CaseInsensitive ".hidden.mp3" = true ∧
    scanSongsWorker "music" [("SONG.MP3", none), (".hidden.mp3", none)] = [] := by
  decide

/-- C7 amended: enumeration is non-recursive with a case-sensitive match:
the scan creates one track, in order, exactly per entry accepted by the
glob `*.mp3` (name not starting with a dot, within one path component,
ending in lowercase `.mp3`), and every entry inside a subdirectory is
rejected by the glob. -/
theorem scan_glob_C7_amended (dir : String) (entries : List (String × Option Mp3Tags)) :
    (scanSongsWorker dir entries).map Song.filepath
        = ((entries.map Prod.fst).filter globMp3Match).map
            (fun n => dir ++ "/" ++ n) ∧
    (∀ name : String, name.toList.contains '/' = true → globMp3Match name = false) := by
  constructor
  · rw [scanSongsWorker, List.enum, map_filepath_enumFrom dir, ← filter_fst_comm,
      List.map_map]
    rfl
  · intro name h
    simp only [globMp3Match, Bool.and_eq_false_iff]
    exact Or.inl (Or.inr (by rw [Bool.not_eq_false']; exact h))

/-- C7 amended witness: the characterization at a concrete directory and a
concrete subdirectory entry. -/
theorem scan_glob_C7_amended_witness :
    (scanSongsWorker "music" [("b.mp3", none)]).map Song.filepath = ["music/b.mp3"] ∧
    globMp3Match "sub/x.mp3" = false :=
  ⟨(scan_glob_C7_amended "music" [("b.mp3", none)]).1.trans (by decide),
   (scan_glob_C7_amended "music" [("b.mp3", none)]).2 "sub/x.mp3" (by decide)⟩

/-- C10: when the song passed to `play` is in the queue, the rotate-to-front
loop terminates (more fuel changes nothing), leaves the song at the front of
a cyclic rotation of the original queue — hence a permutation, the multiset
of elements unchanged — and `play` then makes that song current. -/
theorem rotate_to_front_C10 (s : Song) (q : List Song) (h : s ∈ q) :
    (rotateLoop q.length s q).head? = some s ∧
    (∃ k, k < q.length ∧ rotateLoop q.length s q = q.rotate k) ∧
    List.Perm (rotateLoop q.length s q) q ∧
    (∀ m, rotateLoop (q.length + m) s q = rotateLoop q.length s q) ∧
    (∀ st : PlayerState, st.queue = q → (play (some s) st).current = some s) := by
  obtain ⟨pre, post, rfl, hpre⟩ := exists_first_occurrence s q h
  have hlen : (pre ++ s :: post).length = pre.length + post.length + 1 := by
    simp only [List.length_append, List.length_cons]
    omega
  have hrun : rotateLoop (pre ++ s :: post).length s (pre ++ s :: post)
      = s :: (post ++ pre) := by
    rw [hlen]
    exact rotateLoop_eq_of_first s pre post post.length hpre
  have hrot : (pre ++ s :: post).rotate pre.length = s :: (post ++ pre) := by
    rw [List.rotate_eq_drop_append_take
      (by simp only [List.length_append, List.length_cons]; omega)]
    rw [List.drop_left, List.take_left]
    simp
  refine ⟨by rw [hrun]; rfl, ⟨pre.length, by rw [hlen]; omega, by rw [hrun, hrot]⟩,
    ?_, ?_, ?_⟩
  · rw [hrun, ← hrot]
    exact List.rotate_perm (pre ++ s :: post) pre.length
  · intro m
    have hlen2 : (pre ++ s :: post).length + m = pre.length + (post.length + m) + 1 := by
      simp only [List.length_append, List.length_cons]
      omega
    rw [hrun, hlen2]
    exact rotateLoop_eq_of_first s pre (post) (post.length + m) hpre
  · intro st hq
    have hmem2 : s ∈ pre ++ s :: post := h
    simp only [play, hq, hmem2, if_true, hrun]

/-- C10 witness: the rotate-to-front property at a concrete queue containing
the target in second position. -/
theorem rotate_to_front_C10_witness :
    sampleB ∈ [sampleA, sampleB, sampleC] ∧
    (rotateLoop 3 sampleB [sampleA, sampleB, sampleC]).head? = some sampleB ∧
    (play (some sampleB) (loadQueue [sampleA, sampleB, sampleC] playerInit)).current
      = some sampleB :=
  ⟨by decide,
   (rotate_to_front_C10 sampleB [sampleA, sampleB, sampleC] (by decide)).1,
   (rotate_to_front_C10 sampleB [sampleA, sampleB, sampleC] (by decide)).2.2.2.2
     (loadQueue [sampleA, sampleB, sampleC] playerInit) rfl⟩

/-- C6 counterexample: in the Flet player, `play` appends the outgoing
current song to the history unconditionally, so playing the same song three
times in a row leaves two equal consecutive entries on the history stack —
the dedup-at-append claim fails for this history. -/
theorem history_dedup_C6_counterexample :
    (play (some sampleA) (play (some sampleA) (play (some sampleA) playerInit))).history
        = [sampleA, sampleA] ∧
    ¬ List.Chain' (fun x y : Song => x ≠ y)
        (play (some sampleA) (play (some sampleA) (play (some sampleA) playerInit))).history := by
  constructor
  · decide
  · intro hch
    have : (play (some sampleA) (play (some sampleA) (play (some sampleA) playerInit))).history
        = [sampleA, sampleA] := by decide
    rw [this] at hch
    exact (List.chain'_cons.mp hch).1 rfl

/-- C6 amended: the dedup-on-consecutive-repeat holds at the history-append
boundary of the Flask service (`add_song_to_history`): it preserves the
no-equal-consecutive-filenames invariant, and appending a song whose
filename equals the top of the stack changes nothing; the Flet player
appends unconditionally (see the counterexample). -/
theorem history_dedup_C6_amended :
    (∀ (lib : MusicLibraryA) (fn : String),
       List.Chain' (fun a b : Song => a.filename ≠ b.filename) lib.playHistory →
       List.Chain' (fun a b : Song => a.filename ≠ b.filename)
         (addSongToHistory lib fn).playHistory) ∧
    (∀ (lib : MusicLibraryA) (fn : String) (song last : Song),
       lookupA lib.songsMap fn = some song →
       lib.playHistory.getLast? = some last →
       last.filename = song.filename →
       addSongToHistory lib fn = lib) := by
  constructor
  · intro lib fn hch
    rw [addSongToHistory]
    cases hsong : lookupA lib.songsMap fn with
    | none => exact hch
    | some song =>
        dsimp only
        cases hlast : lib.playHistory.getLast? with
        | none =>
            dsimp only
            rw [List.chain'_append]
            refine ⟨hch, List.chain'_singleton _, ?_⟩
            intro x hx
            rw [hlast] at hx
            exact absurd hx (by simp)
        | some last =>
            dsimp only
            by_cases hne : last.filename ≠ song.filename
            · rw [if_pos hne]
              dsimp only
              rw [List.chain'_append]
              refine ⟨hch, List.chain'_singleton _, ?_⟩
              intro x hx y hy
              rw [hlast] at hx
              have hx2 : last = x := Option.some.inj (Option.mem_def.mp hx)
              have hy2 : song = y := Option.some.inj (Option.mem_def.mp hy)
              rw [← hx2, ← hy2]
              exact hne
            · rw [if_neg hne]
              exact hch
  · intro lib fn song last hsong hlast heq
    rw [addSongToHistory, hsong]
    dsimp only
    rw [hlast]
    dsimp only
    rw [if_neg (by simp [heq])]

/-- C6 amended witness: preservation and the skipped append at concrete
libraries. -/
theorem history_dedup_C6_amended_witness :
    List.Chain' (fun a b : Song => a.filename ≠ b.filename)
        (addSongToHistory sampleLibA "a.mp3").playHistory ∧
    addSongToHistory sampleLibAHist "a.mp3" = sampleLibAHist :=
  ⟨history_dedup_C6_amended.1 sampleLibA "a.mp3" (by simp [sampleLibA]),
   history_dedup_C6_amended.2 sampleLibAHist "a.mp3" sampleA sampleA
     (by decide) (by decide) rfl⟩

/-- C4 counterexample: in the Flask service, the playlists write fails
(`writeOk = false`) yet the POST handler returns 201 and the whole caller-
observable result is identical to the successful-write run — the
persistence failure is not reported to the caller of save. -/
theorem save_failure_C4_counterexample :
    (handlePlaylistsPost sampleLibA (some ("X", ["a.mp3"])) false).2 = 201 ∧
    handlePlaylistsPost sampleLibA (some ("X", ["a.mp3"])) false
      = handlePlaylistsPost sampleLibA (some ("X", ["a.mp3"])) true := by
  exact ⟨rfl, rfl⟩

/-- C4 amended: save overwrites the entry (creating it if absent) in both
implementations and never rolls the in-memory store back; in the Flet
player the write failure propagates to the caller as an error result, while
in the Flask service the handler answers 201 regardless of the write
outcome. -/
theorem save_semantics_C4_amended (lib : MusicLibraryM) (name : String)
    (songs : List Song) (writeOk : Bool) (libA : MusicLibraryA)
    (entry : String × List String) :
    lookupA (createOrUpdatePlaylist lib name songs writeOk).1.playlists name
        = some songs ∧
    ((createOrUpdatePlaylist lib name songs writeOk).2 = Except.ok ()
        ↔ writeOk = true) ∧
    (createOrUpdatePlaylist lib name songs false).2 = Except.error "IOError" ∧
    (handlePlaylistsPost libA (some entry) writeOk).2 = 201 ∧
    lookupA (handlePlaylistsPost libA (some entry) writeOk).1.playlists entry.1
        = some entry.2 := by
  refine ⟨lookupA_insertAssoc lib.playlists name songs, ?_, rfl, rfl,
    lookupA_insertAssoc libA.playlists entry.1 entry.2⟩
  cases writeOk <;> simp [createOrUpdatePlaylist]

/-- C3 counterexample: the Flask-service load stores the persisted mapping
verbatim — after loading a playlist naming `a.mp3` and `b.mp3` against a
catalog that resolves only `a.mp3`, the dangling `b.mp3` reference is kept
rather than dropped, refuting resolution-on-load for this implementation. -/
theorem playlist_load_C3_counterexample :
    lookupA (appLoadPlaylists sampleLibA
        (.content [("X", ["a.mp3", "b.mp3"])])).playlists "X"
      = some ["a.mp3", "b.mp3"] ∧
    lookupA (appLoadPlaylists sampleLibA
        (.content [("X", ["a.mp3", "b.mp3"])])).songsMap "b.mp3" = none := by
  exact ⟨rfl, rfl⟩

/-- C3 amended: in the Flet player, load resolves every persisted path
through the catalog lookup and keeps only resolved tracks: saving
`X = [t1, t2]`, restarting into a library whose catalog resolves the two
paths to `u1` and `u2`, and loading yields `get "X" = [u1, u2]`; when the
path of `t2` no longer resolves, `get "X" = [u1]` — the dangling reference
is dropped silently. -/
theorem playlist_roundtrip_C3_amended (lib1 lib2 : MusicLibraryM)
    (t1 t2 u1 : Song)
    (hpl : lib1.playlists = [("X", [t1, t2])])
    (h1 : getSongByFilepath lib2 t1.filepath = some u1) :
    (∀ u2, getSongByFilepath lib2 t2.filepath = some u2 →
       getPlaylistM (loadPlaylistsM lib2 (.content (savePlaylistsM lib1))) "X"
         = [u1, u2]) ∧
    (getSongByFilepath lib2 t2.filepath = none →
       getPlaylistM (loadPlaylistsM lib2 (.content (savePlaylistsM lib1))) "X"
         = [u1]) := by
  constructor
  · intro u2 h2
    simp [savePlaylistsM, hpl, loadPlaylistsM, getPlaylistM, lookupA, h1, h2]
  · intro h2
    simp [savePlaylistsM, hpl, loadPlaylistsM, getPlaylistM, lookupA, h1, h2]

/-- C3 amended witness: the round trip at concrete libraries, where the
restarted catalog resolves only the first path. -/
theorem playlist_roundtrip_C3_amended_witness :
    getPlaylistM (loadPlaylistsM sampleLibM2 (.content (savePlaylistsM sampleLibM1))) "X"
      = [sampleA] :=
  (playlist_roundtrip_C3_amended sampleLibM1 sampleLibM2 sampleA sampleB sampleA
    rfl (by decide)).2 (by decide)

/-- One interleaving step preserves the lock invariant. -/
theorem sysInv_step {s s' : Sys} (hInv : SysInv s) (hstep : SysStep s s') :
    SysInv s' := by
  obtain ⟨h1, h2, h3⟩ := hInv
  obtain ⟨l, hl⟩ := hstep
  rcases l with ⟨i, a⟩ | ⟨i, a⟩ <;> rcases i <;> rcases a <;>
    simp only [stepL, tstep, wstep, Sys.tpc, Sys.wpc, Sys.setT, Sys.setW] at hl <;>
    split at hl <;>
    first
      | exact Option.noConfusion hl
      | (injection hl with h
         subst h
         simp_all [SysInv, inCS])

/-- Every reachable system state satisfies the lock invariant. -/
theorem sysInv_of_reachable {s : Sys} (h : SysReachable s) : SysInv s := by
  induction h with
  | init => exact ⟨by decide, by decide, by decide⟩
  | step _ hstep ih => exact sysInv_step ih hstep

/-- C1 counterexample: run `trigger_scan` to completion with no other
thread scheduled — the trigger has returned, yet `status()` reads
`scanning = false` and no catalog replacement has completed, because the
flag is only set later by the worker thread; moreover a second trigger that
checks before either worker runs also passes the unlocked check, and the
full schedule ends with two catalog replacements — check-then-transition is
not one indivisible step. -/
theorem trigger_scan_C1_counterexample :
    (runSys initSys [.trig false .check, .trig false .spawnW, .trig false .ret]).t1
        = TPc.returned ∧
    (runSys initSys [.trig false .check, .trig false .spawnW, .trig false .ret]).scanning
        = false ∧
    (runSys initSys [.trig false .check, .trig false .spawnW, .trig false .ret]).replaceCount
        = 0 ∧
    (runSys initSys
        [.trig false .check, .trig false .spawnW, .trig false .ret,
         .trig true .check, .trig true .spawnW, .trig true .ret,
         .work false .acq, .work false .setFlag, .work false .replaceCat,
         .work false .clearFlag, .work false .rel,
         .work true .acq, .work true .setFlag, .work true .replaceCat,
         .work true .clearFlag, .work true .rel]).replaceCount = 2 := by
  decide

/-- C1 amended: the scanning-flag check (unlocked, in `scan_songs_async`)
and the transition to scanning (inside the worker) are separate steps, so
the guarantee as claimed fails (see the counterexample); what the
`scan_lock` does guarantee is that in every reachable state at most one
worker is inside the locked scan region, so two catalog replacements never
overlap in time. -/
theorem scan_mutex_C1_amended (s : Sys) (h : SysReachable s) :
    ¬(inCS s.w1 = true ∧ inCS s.w2 = true) :=
  (sysInv_of_reachable h).2.2

/-- C1 amended witness: mutual exclusion at a concrete reachable state, one
worker inside the locked region. -/
theorem scan_mutex_C1_amended_witness :
    ¬(inCS (witSysAcq.w1) = true ∧ inCS (witSysAcq.w2) = true) :=
  scan_mutex_C1_amended witSysAcq
    (SysReachable.step
      (SysReachable.step
        (SysReachable.step SysReachable.init
          (⟨.trig false .check, by decide⟩ : SysStep initSys witSysChecked))
        (⟨.trig false .spawnW, by decide⟩ : SysStep witSysChecked witSysSpawned))
      (⟨.work false .acq, by decide⟩ : SysStep witSysSpawned witSysAcq))

end Spritefy
